import Mathlib

/-!
# Verification of the Orbit Finance activity-tracker core

A shallow embedding, in Lean 4, of the parts of `src/index.js` that the
frozen claims are about: the bounded TTL/insertion-order cache, the
quiet-hours/snooze evaluator, the event-type decoder and swap-direction
inference, USD valuation of trades and wallet transactions, the realized-PnL
cost-basis algorithm, the dedup behaviour of the two live-feed message
handlers, the fan-out send loop's pause schedule, and the portfolio sync.

JavaScript numbers are modelled as `ℚ` (the code paths under verification
perform exact field arithmetic on decoded integers and prices; `NaN` and
floating-point rounding are outside the model).  JavaScript `Map`s are
modelled as association lists in insertion order: `Map.set` replaces an
existing key in place and appends a new key at the end, exactly the
iteration-order contract the source relies on for its oldest-first eviction.
Optional / possibly-`undefined` fields are `Option` values, and the
JavaScript truthiness of `||`-chains on numbers (`0` is falsy) and strings
(`""` is falsy) is modelled explicitly.
-/

namespace Orbit

/-- JS `a || b` on numeric fields: `a` wins unless it is absent or `0`
(both falsy in JS). -/
def jsOrQ (a b : Option ℚ) : Option ℚ :=
  match a with
  | some x => if x = 0 then b else some x
  | none => b

/-- JS `a || b` on string fields: `a` wins unless it is absent or `""`. -/
def jsOrS (a b : Option String) : Option String :=
  match a with
  | some s => if s = "" then b else some s
  | none => b

/-- JS truthiness of an optional string (`undefined` and `""` are falsy). -/
def jsTruthyS (a : Option String) : Bool :=
  match a with
  | some s => s ≠ ""
  | none => false

/-- `s.toLowerCase()`. -/
def jsLower (s : String) : String := ⟨s.data.map Char.toLower⟩

/-- Boolean list-prefix test, used to implement `String.includes`. -/
def isPrefixOfB : List Char → List Char → Bool
  | [], _ => true
  | _ :: _, [] => false
  | a :: as, b :: bs => a = b && isPrefixOfB as bs

/-- Boolean "contains as contiguous sublist" test. -/
def containsSubB (needle : List Char) : List Char → Bool
  | [] => needle.isEmpty
  | h :: t => isPrefixOfB needle (h :: t) || containsSubB needle t

/-- JS `s.includes(sub)`. -/
def jsIncludes (s sub : String) : Bool := containsSubB sub.data s.data

/-- JS `Map.prototype.get`, on the insertion-ordered association list. -/
def mapGet {κ α : Type} [DecidableEq κ] (m : List (κ × α)) (k : κ) : Option α :=
  match m.find? (fun e => e.1 = k) with
  | some e => some e.2
  | none => none

/-- JS `Map.prototype.set`: replace in place if the key exists (keeping its
insertion position), otherwise append at the end. -/
def mapSet {κ α : Type} [DecidableEq κ] (m : List (κ × α)) (k : κ) (v : α) :
    List (κ × α) :=
  match m with
  | [] => [(k, v)]
  | e :: rest => if e.1 = k then (k, v) :: rest else e :: mapSet rest k v

/-- JS `Map.prototype.delete`: remove the entry for `k` (the first match). -/
def mapDelete {κ α : Type} [DecidableEq κ] (m : List (κ × α)) (k : κ) :
    List (κ × α) :=
  match m with
  | [] => []
  | e :: rest => if e.1 = k then rest else e :: mapDelete rest k

/-- Stable insertion step for the JS `Array.prototype.sort` model: `keep x t`
says the already-placed element `x` stays in front of the newly inserted
element `t`. -/
def insertKeep {α : Type} (keep : α → α → Bool) (t : α) : List α → List α
  | [] => [t]
  | x :: xs => if keep x t then x :: insertKeep keep t xs else t :: x :: xs

/-- Stable sort (JS engines' `sort` is stable): elements are inserted left to
right, each placed after every already-placed element `x` with `keep x t`. -/
def sortKeep {α : Type} (keep : α → α → Bool) (l : List α) : List α :=
  l.foldl (fun acc t => insertKeep keep t acc) []

/-! ## Token mints (`const MINTS`, src/index.js:320-328) -/

def MINTS.SOL : String := "So11111111111111111111111111111111111111112"
def MINTS.USDC : String := "EPjFWdd5AufqSSqeM2qN1xzybapC8G4wEGGkZwyTDt1v"
def MINTS.USDT : String := "Es9vMFrzaCERmJfrF4H2FYD4KCoNkY11McCe8BenwNYB"
def MINTS.CIPHER : String := "Ciphern9cCXtms66s8Mm6wCFC27b2JProRQLYmiLMH3N"

/-! ## Bounded cache (`class BoundedCache`, src/index.js:876-929) -/

/-- One cache slot: `{ value, timestamp }` as stored by `BoundedCache.set`. -/
structure CacheEntry (α : Type) where
  value : α
  timestamp : ℤ
deriving DecidableEq, Repr

/-- `BoundedCache`: a capacity, a TTL in ms, and the backing `Map` in
insertion order. -/
structure BoundedCache (κ α : Type) where
  maxSize : ℕ
  ttlMs : ℤ
  cache : List (κ × CacheEntry α)
deriving DecidableEq, Repr

/-- `BoundedCache.set(key, value)` at wall-clock `now`: if at capacity, delete
`this.cache.keys().next().value` (the first-inserted key), then `Map.set`. -/
def BoundedCache.set {κ α : Type} [DecidableEq κ] (c : BoundedCache κ α)
    (k : κ) (v : α) (now : ℤ) : BoundedCache κ α :=
  let cache1 :=
    if c.cache.length ≥ c.maxSize then
      match c.cache.head? with
      | some e => mapDelete c.cache e.1
      | none => c.cache
    else c.cache
  { c with cache := mapSet cache1 k ⟨v, now⟩ }

/-- `BoundedCache.get(key)` at wall-clock `now`: miss on absent key; if the
entry's age strictly exceeds the TTL, delete it and miss; otherwise hit,
leaving the map (and its order) untouched. Returns the result together with
the updated cache. -/
def BoundedCache.get {κ α : Type} [DecidableEq κ] (c : BoundedCache κ α)
    (k : κ) (now : ℤ) : Option α × BoundedCache κ α :=
  match mapGet c.cache k with
  | none => (none, c)
  | some e =>
    if now - e.timestamp > c.ttlMs then
      (none, { c with cache := mapDelete c.cache k })
    else (some e.value, c)

/-! ## Subscriber snooze / quiet hours (`isUserSnoozed`, src/index.js:2137-2149) -/

/-- The subscriber fields `isUserSnoozed` reads. -/
structure Subscriber where
  snoozedUntil : ℤ := 0
  quietStart : Option ℕ := none
  quietEnd : Option ℕ := none
deriving DecidableEq, Repr

/-- `isUserSnoozed(user)` with `Date.now()` = `now` and
`new Date().getUTCHours()` = `hour`. `snoozedUntil` is truthy iff nonzero. -/
def isUserSnoozed (u : Subscriber) (now : ℤ) (hour : ℕ) : Bool :=
  if u.snoozedUntil ≠ 0 ∧ now < u.snoozedUntil then true
  else
    match u.quietStart, u.quietEnd with
    | some s, some e =>
      if s < e then s ≤ hour ∧ hour < e
      else s ≤ hour ∨ hour < e
    | _, _ => false

/-! ## Event decoder (`TX_TYPE`, `getSwapDirection`, `detectTransactionType`,
src/index.js:337-353, 546-566, 572-713)

The message model carries the structured fields the decoder reads.  It does
not carry the binary `instructionData`/`data`/`logs` payloads, so detection
methods 2-3 (the 8-byte discriminator tables) never fire — exactly as in the
source for messages without those fields, which is the case for every claim
under verification here. -/

def TX_TYPE.SWAP : String := "swap"
def TX_TYPE.LP_ADD : String := "lp_add"
def TX_TYPE.LP_REMOVE : String := "lp_remove"
def TX_TYPE.CLOSE_POSITION : String := "close_position"
def TX_TYPE.LOCK_LIQUIDITY : String := "lock_liquidity"
def TX_TYPE.UNLOCK_LIQUIDITY : String := "unlock_liquidity"
def TX_TYPE.POOL_INIT : String := "pool_init"
def TX_TYPE.FEES_DISTRIBUTED : String := "fees_distributed"
def TX_TYPE.CLAIM_REWARDS : String := "claim_rewards"
def TX_TYPE.SYNC_STAKE : String := "sync_stake"
def TX_TYPE.CLOSE_POOL : String := "close_pool"
def TX_TYPE.PROTOCOL_FEES : String := "protocol_fees"
def TX_TYPE.ADMIN : String := "admin"
def TX_TYPE.SETUP : String := "setup"
def TX_TYPE.UNKNOWN : String := "unknown"

/-- JS truthiness of an optional number (`undefined`, `null` and `0` falsy). -/
def jsTruthyQ (a : Option ℚ) : Bool :=
  match a with
  | some v => v ≠ 0
  | none => false

/-- The structured fields of a WebSocket message that the decoder reads. -/
structure OrbitMessage where
  type : Option String := none
  eventType : Option String := none
  event : Option String := none
  action : Option String := none
  instructionName : Option String := none
  eventName : Option String := none
  side : Option String := none
  tradeType : Option String := none
  inMint : Option String := none
  in_mint : Option String := none
  inputMint : Option String := none
  outMint : Option String := none
  out_mint : Option String := none
  outputMint : Option String := none
  baseMint : Option String := none
  base_mint : Option String := none
  quoteMint : Option String := none
  quote_mint : Option String := none
  amountIn : Option ℚ := none
  amount_in : Option ℚ := none
  amountOut : Option ℚ := none
  amount_out : Option ℚ := none
  sharesMinted : Option ℚ := none
  shares_minted : Option ℚ := none
  sharesBurned : Option ℚ := none
  shares_burned : Option ℚ := none
  baseAmount : Option ℚ := none
  base_amount : Option ℚ := none
  baseAmountOut : Option ℚ := none
  quoteAmount : Option ℚ := none
  quote_amount : Option ℚ := none
  quoteAmountOut : Option ℚ := none
deriving DecidableEq, Repr

/-- `getSwapDirection(message)` (src/index.js:546-566): explicit `side` wins
when truthy; otherwise the mint-comparison cascade, on lower-cased mints with
absent fields read as `''`. -/
def getSwapDirection (m : OrbitMessage) : Option String :=
  if jsTruthyS m.side then m.side.map jsLower
  else
    let inMint := jsLower ((jsOrS (jsOrS m.inMint m.in_mint) m.inputMint).getD "")
    let outMint := jsLower ((jsOrS (jsOrS m.outMint m.out_mint) m.outputMint).getD "")
    let baseMint := jsLower ((jsOrS m.baseMint m.base_mint).getD "")
    let quoteMint := jsLower ((jsOrS m.quoteMint m.quote_mint).getD "")
    let cipher := jsLower MINTS.CIPHER
    let sol := jsLower MINTS.SOL
    if inMint = quoteMint ∧ outMint = baseMint then some "buy"
    else if inMint = sol ∧ outMint = cipher then some "buy"
    else if inMint = baseMint ∧ outMint = quoteMint then some "sell"
    else if inMint = cipher ∧ outMint = sol then some "sell"
    else if outMint = cipher ∨ jsIncludes outMint "cipher" then some "buy"
    else if inMint = cipher ∨ jsIncludes inMint "cipher" then some "sell"
    else none

/-- Result of `detectTransactionType`. -/
structure Detection where
  type : String
  direction : Option String := none
  confidence : String := "none"
deriving DecidableEq, Repr

/-- Heuristic fallback (methods 4-5 of `detectTransactionType`,
src/index.js:674-712). -/
def detectHeuristic (m : OrbitMessage) : Detection :=
  if jsTruthyQ (jsOrQ m.sharesMinted m.shares_minted) then
    ⟨TX_TYPE.LP_ADD, some "add", "medium"⟩
  else if jsTruthyQ (jsOrQ m.sharesBurned m.shares_burned) then
    ⟨TX_TYPE.LP_REMOVE, some "remove", "medium"⟩
  else
    let hasAmountIn := jsTruthyQ (jsOrQ m.amountIn m.amount_in)
    let hasAmountOut := jsTruthyQ (jsOrQ m.amountOut m.amount_out)
    let hasInMint := jsTruthyS (jsOrS (jsOrS m.inMint m.in_mint) m.inputMint)
    let hasOutMint := jsTruthyS (jsOrS (jsOrS m.outMint m.out_mint) m.outputMint)
    let inMint := (jsOrS (jsOrS m.inMint m.in_mint) m.inputMint).getD ""
    let outMint := (jsOrS (jsOrS m.outMint m.out_mint) m.outputMint).getD ""
    if hasAmountIn && hasAmountOut && hasInMint && hasOutMint && inMint ≠ outMint then
      ⟨TX_TYPE.SWAP, getSwapDirection m, "medium"⟩
    else
      let hasBaseAmount := jsTruthyQ (jsOrQ (jsOrQ m.baseAmount m.base_amount) m.baseAmountOut)
      let hasQuoteAmount := jsTruthyQ (jsOrQ (jsOrQ m.quoteAmount m.quote_amount) m.quoteAmountOut)
      if hasBaseAmount && hasQuoteAmount && !hasAmountIn && !hasAmountOut then
        if jsTruthyQ m.baseAmountOut || jsTruthyQ m.quoteAmountOut then
          ⟨TX_TYPE.LP_REMOVE, some "remove", "medium"⟩
        else ⟨TX_TYPE.LP_ADD, some "add", "medium"⟩
      else if jsTruthyS m.side || jsTruthyS m.tradeType then
        let sideStr := jsLower ((jsOrS m.side m.tradeType).getD "")
        let direction :=
          if sideStr = "buy" then some "buy"
          else if sideStr = "sell" then some "sell" else none
        ⟨TX_TYPE.SWAP, direction, "low"⟩
      else ⟨TX_TYPE.UNKNOWN, none, "none"⟩

/-- `detectTransactionType(message)` (src/index.js:572-713), method 1 (the
explicit lower-cased `type`/`eventType`/`event`/`action`/`instructionName`/
`eventName` label cascade with its `includes` substring tests) followed by
the heuristic fallback. -/
def detectTransactionType (m : OrbitMessage) : Detection :=
  let e := jsLower ((jsOrS (jsOrS (jsOrS (jsOrS (jsOrS m.type m.eventType)
    m.event) m.action) m.instructionName) m.eventName).getD "")
  if jsIncludes e "swap" || e = "trade" || e = "swapexecuted" then
    ⟨TX_TYPE.SWAP, getSwapDirection m, "high"⟩
  else if jsIncludes e "add_liquidity" || jsIncludes e "addliquidity" ||
      jsIncludes e "deposit" || e = "lp_add" || e = "liquiditydeposited" then
    ⟨TX_TYPE.LP_ADD, some "add", "high"⟩
  else if jsIncludes e "withdraw" || jsIncludes e "remove_liquidity" ||
      jsIncludes e "removeliquidity" || e = "lp_remove" ||
      jsIncludes e "liquiditywithdrawn" then
    ⟨TX_TYPE.LP_REMOVE, some "remove", "high"⟩
  else if jsIncludes e "close_position" || e = "closeposition" then
    ⟨TX_TYPE.CLOSE_POSITION, some "remove", "high"⟩
  else if jsIncludes e "init_pool" || e = "poolinitialized" then
    ⟨TX_TYPE.POOL_INIT, none, "high"⟩
  else if jsIncludes e "claim_holder_rewards" || jsIncludes e "claim_nft_rewards" ||
      jsIncludes e "claimrewards" then
    ⟨TX_TYPE.CLAIM_REWARDS, none, "high"⟩
  else if e = "feesdistributed" || e = "fees_distributed" then
    ⟨TX_TYPE.FEES_DISTRIBUTED, none, "high"⟩
  else if jsIncludes e "lock_liquidity" || e = "liquiditylocked" then
    ⟨TX_TYPE.LOCK_LIQUIDITY, none, "high"⟩
  else if jsIncludes e "unlock_liquidity" || e = "liquidityunlocked" then
    ⟨TX_TYPE.UNLOCK_LIQUIDITY, none, "high"⟩
  else if jsIncludes e "sync_holder_stake" || e = "syncholderstakeevent" then
    ⟨TX_TYPE.SYNC_STAKE, none, "high"⟩
  else if e = "init_position" || e = "initposition" then
    ⟨TX_TYPE.LP_ADD, some "add", "high"⟩
  else if jsIncludes e "close_pool" || e = "closepool" then
    ⟨TX_TYPE.CLOSE_POOL, none, "high"⟩
  else if jsIncludes e "claim_protocol_fees" || jsIncludes e "transfer_protocol_fees" then
    ⟨TX_TYPE.PROTOCOL_FEES, none, "high"⟩
  else if jsIncludes e "update_admin" || e = "adminupdated" ||
      jsIncludes e "update_authorities" || e = "authoritiesupdated" ||
      jsIncludes e "update_fee_config" || e = "feeconfigured" ||
      e = "feeconfigupdated" || jsIncludes e "set_pause" ||
      jsIncludes e "unpause" || e = "pauseupdated" ||
      jsIncludes e "set_pause_bits" then
    ⟨TX_TYPE.ADMIN, none, "high"⟩
  else if jsIncludes e "create_bin_array" || e = "binarraycreated" ||
      jsIncludes e "init_oracle" || jsIncludes e "init_position_bin" ||
      jsIncludes e "init_holder_global" || jsIncludes e "init_nft_global" ||
      jsIncludes e "init_user_holder" || jsIncludes e "init_user_nft" ||
      e = "liquiditybincreated" || jsIncludes e "view_farming" then
    ⟨TX_TYPE.SETUP, none, "high"⟩
  else detectHeuristic m

/-! ## Price and token-metadata environment
(`getPrice` src/index.js:1168-1177, `getSolPrice` 1179-1184,
`getDecimals` 1384) -/

/-- A `priceCache` entry: `{ price, updatedAt }`. -/
structure PriceCacheEntry where
  price : ℚ
  updatedAt : ℤ
deriving DecidableEq, Repr

/-- Cached token metadata; only `decimals` is read by the valuation paths. -/
structure TokenMeta where
  decimals : ℕ
deriving DecidableEq, Repr

/-- The process-wide mutable state the valuation functions read: the price
cache, the token-metadata map, the clock, and the configured refresh
interval. -/
structure PriceEnv where
  priceCache : List (String × PriceCacheEntry) := []
  tokens : List (String × TokenMeta) := []
  now : ℤ := 0
  priceRefreshInterval : ℤ := 300000
deriving Repr

/-- `getPrice(mint)`: `null` for a falsy mint, `1` for the stablecoins, else
the cached price provided it is younger than `2 × priceRefreshInterval`. -/
def getPrice (env : PriceEnv) (mint : String) : Option ℚ :=
  if mint = "" then none
  else if mint = MINTS.USDC ∨ mint = MINTS.USDT then some 1
  else
    match mapGet env.priceCache mint with
    | some c =>
      if env.now - c.updatedAt < env.priceRefreshInterval * 2 then some c.price
      else none
    | none => none

/-- `getSolPrice()`: `getPrice(SOL)` when truthy, else `null`. -/
def getSolPrice (env : PriceEnv) : Option ℚ :=
  match getPrice env MINTS.SOL with
  | some p => if p ≠ 0 then some p else none
  | none => none

/-- `getDecimals = (addr) => tokens.get(addr)?.decimals || 6`
(src/index.js:1384): unknown mints AND cached `decimals: 0` both yield 6. -/
def getDecimals (env : PriceEnv) (addr : String) : ℕ :=
  match mapGet env.tokens addr with
  | some t => if t.decimals = 0 then 6 else t.decimals
  | none => 6

/-! ## Trade USD estimation (`estimateTradeUsd`, src/index.js:2305-2378) -/

/-- The trade-message fields `estimateTradeUsd` reads, including every
`getAmount` alias (`amountIn`, `amountInAmount`, `amount_amountIn`, `in`
(here `inAmt`), `inputAmount`, and the `Out` counterparts). -/
structure Trade where
  side : Option String := none
  usdValue : Option ℚ := none
  valueUsd : Option ℚ := none
  value : Option ℚ := none
  amountIn : Option ℚ := none
  amountInAmount : Option ℚ := none
  amount_amountIn : Option ℚ := none
  inAmt : Option ℚ := none
  inputAmount : Option ℚ := none
  amountOut : Option ℚ := none
  amountOutAmount : Option ℚ := none
  amount_amountOut : Option ℚ := none
  outAmt : Option ℚ := none
  outputAmount : Option ℚ := none
deriving DecidableEq, Repr

/-- The pool fields the valuation and fan-out paths read. -/
structure Pool where
  id : String := ""
  baseMint : Option String := none
  base : Option String := none
  quoteMint : Option String := none
  quote : Option String := none
  price : Option ℚ := none
  isCipher : Bool := false
  pairName : String := ""
deriving DecidableEq, Repr

/-- `parseFloat(getAmount(trade,'amountIn') || trade.in || trade.inputAmount
|| 0)`. -/
def tradeAmountIn (t : Trade) : ℚ :=
  (jsOrQ (jsOrQ (jsOrQ (jsOrQ t.amountIn t.amountInAmount) t.amount_amountIn)
    t.inAmt) t.inputAmount).getD 0

/-- `parseFloat(getAmount(trade,'amountOut') || trade.out || trade.outputAmount
|| 0)`. -/
def tradeAmountOut (t : Trade) : ℚ :=
  (jsOrQ (jsOrQ (jsOrQ (jsOrQ t.amountOut t.amountOutAmount) t.amount_amountOut)
    t.outAmt) t.outputAmount).getD 0

/-- The explicit-value clause of `estimateTradeUsd`: `usdValue` when positive,
else `valueUsd` when positive, else `value` when positive and under the 1e9
sanity cap. -/
def tradeExplicitUsd (t : Trade) : Option ℚ :=
  if (match t.usdValue with | some v => decide (0 < v) | none => false) then t.usdValue
  else if (match t.valueUsd with | some v => decide (0 < v) | none => false) then t.valueUsd
  else if (match t.value with | some v => decide (0 < v ∧ v < 1000000000) | none => false)
    then t.value
  else none

/-- Quote-side clause: quote price truthy-positive, quote-side amount
(`amountIn` on a buy, `amountOut` on a sell) positive, and the computed USD
inside the `(0, 1e8)` sanity window. -/
def tradeQuoteUsd (env : PriceEnv) (t : Trade) (pool : Pool) : Option ℚ :=
  let quote := (jsOrS pool.quoteMint pool.quote).getD ""
  match getPrice env quote with
  | some qp =>
    if 0 < qp then
      let amt := if t.side = some "buy" then tradeAmountIn t else tradeAmountOut t
      if 0 < amt then
        let usd := amt / 10 ^ getDecimals env quote * qp
        if 0 < usd ∧ usd < 100000000 then some usd else none
      else none
    else none
  | none => none

/-- Base-side clause: base price, base-side amount (`amountOut` on a buy),
same sanity window. -/
def tradeBaseUsd (env : PriceEnv) (t : Trade) (pool : Pool) : Option ℚ :=
  let base := (jsOrS pool.baseMint pool.base).getD ""
  match getPrice env base with
  | some bp =>
    if 0 < bp then
      let amt := if t.side = some "buy" then tradeAmountOut t else tradeAmountIn t
      if 0 < amt then
        let usd := amt / 10 ^ getDecimals env base * bp
        if 0 < usd ∧ usd < 100000000 then some usd else none
      else none
    else none
  | none => none

/-- Pool-spot-price fallback clause: `pool.price` truthy-positive times the
base amount, same sanity window. -/
def tradePoolUsd (env : PriceEnv) (t : Trade) (pool : Pool) : Option ℚ :=
  match pool.price with
  | some pp =>
    if 0 < pp then
      let baseAmt := if t.side = some "buy" then tradeAmountOut t else tradeAmountIn t
      if 0 < baseAmt then
        let base := (jsOrS pool.baseMint pool.base).getD ""
        let usd := baseAmt / 10 ^ getDecimals env base * pp
        if 0 < usd ∧ usd < 100000000 then some usd else none
      else none
    else none
  | none => none

/-- `estimateTradeUsd(trade, pool)`: the four clauses in source order, `0`
when all fail. -/
def estimateTradeUsd (env : PriceEnv) (t : Trade) (pool : Pool) : ℚ :=
  ((((tradeExplicitUsd t).orElse fun _ => tradeQuoteUsd env t pool).orElse
    fun _ => tradeBaseUsd env t pool).orElse
    fun _ => tradePoolUsd env t pool).getD 0

/-! ## LP and wallet-transaction USD (`estimateLpUsd` src/index.js:2380-2404,
`estimateWalletTxUsd` 2406-2431) -/

/-- The LP-event message fields `estimateLpUsd` reads. -/
structure LpMsg where
  usdValue : Option ℚ := none
  value : Option ℚ := none
  quoteAmount : Option ℚ := none
  baseAmount : Option ℚ := none
deriving DecidableEq, Repr

/-- `estimateLpUsd(msg, pool)`: explicit value fields first, else quote side
plus (when both base price and amount are truthy) base side. -/
def estimateLpUsd (env : PriceEnv) (msg : LpMsg) (pool : Pool) : ℚ :=
  if jsTruthyQ msg.usdValue then msg.usdValue.getD 0
  else if jsTruthyQ msg.value then msg.value.getD 0
  else
    let quote := (jsOrS pool.quoteMint pool.quote).getD ""
    let quotePrice := getPrice env quote
    if jsTruthyQ quotePrice ∧ jsTruthyQ msg.quoteAmount then
      let quoteSide := msg.quoteAmount.getD 0 / 10 ^ getDecimals env quote * quotePrice.getD 0
      let base := (jsOrS pool.baseMint pool.base).getD ""
      let basePrice := getPrice env base
      if jsTruthyQ basePrice ∧ jsTruthyQ msg.baseAmount then
        quoteSide + msg.baseAmount.getD 0 / 10 ^ getDecimals env base * basePrice.getD 0
      else quoteSide
    else 0

/-- A `nativeTransfers` element. -/
structure NativeTransfer where
  amount : Option ℚ := none
deriving DecidableEq, Repr

/-- A `tokenTransfers` element. -/
structure TokenTransfer where
  mint : String := ""
  tokenAmount : Option ℚ := none
deriving DecidableEq, Repr

/-- The enhanced-transaction fields `estimateWalletTxUsd` reads. -/
structure WalletTx where
  nativeTransfers : List NativeTransfer := []
  tokenTransfers : List TokenTransfer := []
deriving DecidableEq, Repr

/-- `estimateWalletTxUsd(tx)`: lamports summed and divided by `1e9` times the
SOL price, plus each token transfer's `|amount| / 10^decimals × price` for
transfers whose mint has a truthy price. -/
def estimateWalletTxUsd (env : PriceEnv) (tx : WalletTx) : ℚ :=
  let solPart :=
    if tx.nativeTransfers.length > 0 then
      match getSolPrice env with
      | some sp =>
        tx.nativeTransfers.foldl (fun s t => s + |t.amount.getD 0|) 0 / 1000000000 * sp
      | none => 0
    else 0
  let tokenPart :=
    if tx.tokenTransfers.length > 0 then
      tx.tokenTransfers.foldl (fun s tr =>
        match getPrice env tr.mint with
        | some p =>
          if p ≠ 0 then
            s + |tr.tokenAmount.getD 0| / 10 ^ getDecimals env tr.mint * p
          else s
        | none => s) 0
    else 0
  solPart + tokenPart

/-! ## Realized-PnL cost basis (`calculatePnL`, src/index.js:2704-2741) -/

/-- A trade row as consumed by `calculatePnL` and the portfolio engine. -/
structure PnlTrade where
  poolId : String := ""
  side : String := ""
  usd : ℚ := 0
  timestamp : ℤ := 0
  wallet : String := ""
deriving DecidableEq, Repr

/-- Per-pool running position `{ bought, sold, cost }`. -/
structure PoolPos where
  bought : ℚ := 0
  sold : ℚ := 0
  cost : ℚ := 0
deriving DecidableEq, Repr

/-- Result record `{ realized, volume, trades }`. -/
structure PnlResult where
  realized : ℚ := 0
  volume : ℚ := 0
  trades : ℕ := 0
deriving DecidableEq, Repr

/-- Accumulator of the `calculatePnL` loop. -/
structure PnlState where
  positions : List (String × PoolPos) := []
  realizedPnl : ℚ := 0
  totalVolume : ℚ := 0
deriving DecidableEq, Repr

/-- One iteration of the `calculatePnL` trade loop: buys add to `bought` and
`cost`; sells add to `sold` and, when `cost > 0`, realize
`usd − cost × min(usd/cost, 1)` and consume that cost basis. -/
def pnlStep (st : PnlState) (t : PnlTrade) : PnlState :=
  let totalVolume := st.totalVolume + t.usd
  let pos := (mapGet st.positions t.poolId).getD {}
  if t.side = "buy" then
    let pos := { pos with bought := pos.bought + t.usd, cost := pos.cost + t.usd }
    { positions := mapSet st.positions t.poolId pos,
      realizedPnl := st.realizedPnl, totalVolume }
  else
    let pos1 := { pos with sold := pos.sold + t.usd }
    if 0 < pos1.cost then
      -- `Math.min(trade.usd / pos.cost, 1)`
      let proportion := if t.usd / pos1.cost ≤ 1 then t.usd / pos1.cost else 1
      let costBasis := pos1.cost * proportion
      { positions := mapSet st.positions t.poolId { pos1 with cost := pos1.cost - costBasis },
        realizedPnl := st.realizedPnl + (t.usd - costBasis), totalVolume }
    else
      { positions := mapSet st.positions t.poolId pos1,
        realizedPnl := st.realizedPnl, totalVolume }

/-- `calculatePnL(trades)`: zero result on an empty list, else fold the loop
over the trades stably sorted ascending by timestamp. -/
def calculatePnL (trades : List PnlTrade) : PnlResult :=
  if trades.length = 0 then {}
  else
    let sorted := sortKeep (fun a b => a.timestamp ≤ b.timestamp) trades
    let fin := sorted.foldl pnlStep {}
    ⟨fin.realizedPnl, fin.totalVolume, trades.length⟩

/-! ## Live-feed dedup (`handleOrbitMessage` src/index.js:4068-4103,
`processTrade` 4182-4228, `handleHeliusMessage` 4496-4515)

The fan-out recipient sets are abstracted as chat-id lists (`recipients`:
the subscribers `broadcastTradeAlert` selects; `walletRecipients`: the
subscribers with the sending wallet subscribed); only the dedup logic and the
resulting per-subscriber notification counts are modelled. -/

/-- Which of the two alert classes a send belongs to. -/
inductive AlertKind where
  | swapAlert
  | walletAlert
deriving DecidableEq, Repr

/-- The dedup state: the main DEX seen set `seenTxs`, the wallet-feed set
`seenWalletTxs`, and the log of sink sends `(chat_id, kind, sig)`. -/
structure FeedState where
  seenTxs : List String := []
  seenWalletTxs : List String := []
  sent : List (ℤ × AlertKind × String) := []
deriving DecidableEq, Repr

/-- `handleOrbitMessage` on a message detected as a Swap with signature `sig`
and pool `poolId`, followed by `processTrade`: drop when `sig` is already in
`seenTxs`; otherwise insert into `seenTxs` immediately, then broadcast the
trade alert only when the pool is in the registry `pools`. -/
def handleOrbitSwap (pools : List String) (recipients : List ℤ)
    (sig poolId : String) (st : FeedState) : FeedState :=
  if sig ≠ "" ∧ st.seenTxs.contains sig then st
  else if sig = "" then st
  else if st.seenTxs.contains sig then st
  else
    let st1 := { st with seenTxs := sig :: st.seenTxs }
    if poolId = "" then st1
    else if pools.contains poolId then
      { st1 with sent := st1.sent ++ recipients.map fun c => (c, AlertKind.swapAlert, sig) }
    else st1

/-- `handleHeliusMessage` on a `logsNotification` carrying `sig`: drop when
`sig` is already in `seenWalletTxs`; otherwise insert into `seenWalletTxs`
AND into the main `seenTxs` (src/index.js:4505), then process the wallet
transaction, which fans a WalletAlert out to `walletRecipients`. -/
def handleHeliusLogs (walletRecipients : List ℤ) (sig : String)
    (st : FeedState) : FeedState :=
  if sig = "" ∨ st.seenWalletTxs.contains sig then st
  else
    { st with
      seenWalletTxs := sig :: st.seenWalletTxs,
      seenTxs := sig :: st.seenTxs,
      sent := st.sent ++ walletRecipients.map fun c => (c, AlertKind.walletAlert, sig) }

/-- Number of notifications of kind `k` for signature `sig` delivered to
subscriber `c`. -/
def countSent (st : FeedState) (c : ℤ) (k : AlertKind) (sig : String) : ℕ :=
  st.sent.countP fun e => decide (e.1 = c ∧ e.2.1 = k ∧ e.2.2 = sig)

/-! ## Fan-out pause schedule (`broadcastTradeAlert` send loop,
src/index.js:8355-8382) -/

/-- The number of 100 ms inter-batch pauses the send loop performs over
recipient list `toNotify` when every send succeeds: the loop body pauses
after the send at index `i` exactly when `i > 0 && i % 20 === 0`. -/
def broadcastTradePauses (toNotify : List ℤ) : ℕ :=
  (List.range toNotify.length).countP fun i => decide (0 < i ∧ i % 20 = 0)

/-! ## Portfolio engine (`syncPortfolio` src/index.js:2747-2761,
`_syncPortfolioInternal` 2763-2972)

Each wallet's four sub-fetches run under `Promise.all` inside a promise that
`Promise.allSettled` absorbs: a wallet whose fetches fail is dropped from
`results` and the sync continues.  The staked lookups are absorbed by
`.catch(() => null)`.  The outer `try/catch` returns `null` without touching
the user; the only write to `user.portfolio` is the single whole-record
assignment at the end of a successful run. -/

/-- One aggregated token holding (`{ mint, balance, totalUsd }`). -/
structure TokenHolding where
  mint : String := ""
  balance : ℚ := 0
  totalUsd : ℚ := 0
deriving DecidableEq, Repr

/-- The `fetchWalletBalances` result fields the sync reads. -/
structure Balances where
  nativeBalance : ℚ := 0
  solValueUsd : Option ℚ := none
  totalTokenValue : Option ℚ := none
  tokens : List TokenHolding := []
deriving DecidableEq, Repr

/-- An LP position row; only `valueUsd` (and the attributed wallet) matter to
the aggregation. -/
structure LpPosition where
  valueUsd : Option ℚ := none
  wallet : String := ""
deriving DecidableEq, Repr

/-- The aggregator (`fetchBirdeyeWalletData`) PnL fields. -/
structure BirdeyeData where
  totalPnl : Option ℚ := none
  unrealizedPnl : Option ℚ := none
deriving DecidableEq, Repr

/-- The `fetchUserStakedCipher` result fields the sync reads. -/
structure StakedData where
  scipherBalance : ℚ := 0
  originalStake : Option ℚ := none
  vaultShare : Option ℚ := none
  stakedValueUsd : ℚ := 0
  multiplier : Option ℚ := none
  source : String := ""
deriving DecidableEq, Repr

/-- The joint result of one wallet's four parallel sub-fetches. -/
structure WalletFetch where
  trades : List PnlTrade := []
  lpPositions : List LpPosition := []
  balances : Balances := {}
  birdeye : Option BirdeyeData := none
deriving DecidableEq, Repr

/-- The per-wallet record returned inside `walletPromises`
(src/index.js:2814-2831). -/
structure WalletResult where
  wallet : String
  trades : List PnlTrade
  lpPositions : List LpPosition
  tokens : List TokenHolding
  volume : ℚ
  realizedPnl : ℚ
  unrealizedPnl : ℚ
  value : ℚ
  solBalance : ℚ
  solValue : ℚ
  tokenValue : ℚ
  lpValue : ℚ
  tokenCount : ℕ
  tradeCount : ℕ
  buyCount : ℕ
  sellCount : ℕ
deriving DecidableEq, Repr

/-- The `walletData[wallet]` breakdown record (src/index.js:2868-2881). -/
structure WalletBreakdown where
  value : ℚ
  solBalance : ℚ
  solValue : ℚ
  tokenValue : ℚ
  lpValue : ℚ
  pnl : ℚ
  unrealized : ℚ
  volume : ℚ
  trades : ℕ
  buys : ℕ
  sells : ℕ
  tokenCount : ℕ
deriving DecidableEq, Repr

/-- A staked position row (src/index.js:2901-2908). -/
structure StakedPosition where
  wallet : String
  scipherBalance : ℚ
  originalStake : ℚ
  valueUsd : ℚ
  multiplier : Option ℚ
  source : String
deriving DecidableEq, Repr

/-- The whole-record portfolio snapshot assigned to `user.portfolio`
(src/index.js:2924-2960). -/
structure Portfolio where
  trades : List PnlTrade
  tradeCount : ℕ
  buyCount : ℕ
  sellCount : ℕ
  totalVolume : ℚ
  solBalance : ℚ
  solValue : ℚ
  tokens : List TokenHolding
  tokenCount : ℕ
  totalTokenValue : ℚ
  lpPositions : List LpPosition
  lpValue : ℚ
  stakedPositions : List StakedPosition
  totalScipherBalance : ℚ
  totalStakedCipher : ℚ
  totalStakedValue : ℚ
  realizedPnl : ℚ
  unrealizedPnl : ℚ
  totalValue : ℚ
  walletData : List (String × WalletBreakdown)
  walletCount : ℕ
  lastSync : ℤ
deriving DecidableEq, Repr

/-- The subscriber fields the portfolio sync reads and writes. -/
structure PortfolioUser where
  myWallet : Option String := none
  portfolioWallets : List String := []
  portfolio : Option Portfolio := none
deriving DecidableEq, Repr

/-- The upstream world a sync runs against: per-wallet sub-fetch outcomes
(`Except`: a rejection of the wallet's `Promise.all`), per-wallet staked
lookups (`Option`: already `.catch`-absorbed), prices, and the clock. -/
structure SyncEnv where
  priceEnv : PriceEnv := {}
  fetchWallet : String → Except String WalletFetch := fun _ => Except.error "unreachable"
  fetchStaked : String → Option StakedData := fun _ => none
  now : ℤ := 0

/-- Per-wallet computed fields (src/index.js:2798-2831). -/
def processWallet (env : SyncEnv) (wallet : String) (wf : WalletFetch) : WalletResult :=
  let pnlData := calculatePnL wf.trades
  let solValue :=
    if jsTruthyQ wf.balances.solValueUsd then wf.balances.solValueUsd.getD 0
    else wf.balances.nativeBalance * ((getSolPrice env.priceEnv).getD 0)
  let tokenValue := wf.balances.totalTokenValue.getD 0
  let lpValue := wf.lpPositions.foldl (fun s p => s + p.valueUsd.getD 0) 0
  let walletPnl :=
    match wf.birdeye with
    | some b => match b.totalPnl with | some v => v | none => pnlData.realized
    | none => pnlData.realized
  let walletUnrealized := (wf.birdeye.bind fun b => b.unrealizedPnl).getD 0
  { wallet := wallet,
    trades := wf.trades.map fun t => { t with wallet := wallet },
    lpPositions := wf.lpPositions.map fun p => { p with wallet := wallet },
    tokens := wf.balances.tokens,
    volume := pnlData.volume,
    realizedPnl := walletPnl,
    unrealizedPnl := walletUnrealized,
    value := solValue + tokenValue + lpValue,
    solBalance := wf.balances.nativeBalance,
    solValue := solValue,
    tokenValue := tokenValue,
    lpValue := lpValue,
    tokenCount := wf.balances.tokens.length,
    tradeCount := pnlData.trades,
    buyCount := wf.trades.countP fun t => decide (t.side = "buy"),
    sellCount := wf.trades.countP fun t => decide (t.side = "sell") }

/-- The cross-wallet aggregation accumulator (src/index.js:2776-2787). -/
structure AggState where
  allTrades : List PnlTrade := []
  allLpPositions : List LpPosition := []
  allTokens : List (String × TokenHolding) := []
  totalVolume : ℚ := 0
  totalRealizedPnl : ℚ := 0
  totalUnrealizedPnl : ℚ := 0
  totalSolBalance : ℚ := 0
  totalSolValue : ℚ := 0
  totalTokenValue : ℚ := 0
  buyCount : ℕ := 0
  sellCount : ℕ := 0
  walletData : List (String × WalletBreakdown) := []
deriving DecidableEq, Repr

/-- Token union across wallets: sum `balance` and `totalUsd` per mint,
insertion-ordered (src/index.js:2857-2865). -/
def aggTokens (acc : List (String × TokenHolding)) (toks : List TokenHolding) :
    List (String × TokenHolding) :=
  toks.foldl (fun acc token =>
    match mapGet acc token.mint with
    | some ex => mapSet acc token.mint
        { ex with balance := ex.balance + token.balance,
                  totalUsd := ex.totalUsd + token.totalUsd }
    | none => mapSet acc token.mint token) acc

/-- One step of the per-wallet aggregation loop (src/index.js:2844-2882). -/
def aggStep (st : AggState) (r : WalletResult) : AggState :=
  { allTrades := st.allTrades ++ r.trades,
    allLpPositions := st.allLpPositions ++ r.lpPositions,
    allTokens := aggTokens st.allTokens r.tokens,
    totalVolume := st.totalVolume + r.volume,
    totalRealizedPnl := st.totalRealizedPnl + r.realizedPnl,
    totalUnrealizedPnl := st.totalUnrealizedPnl + r.unrealizedPnl,
    totalSolBalance := st.totalSolBalance + r.solBalance,
    totalSolValue := st.totalSolValue + r.solValue,
    totalTokenValue := st.totalTokenValue + r.tokenValue,
    buyCount := st.buyCount + r.buyCount,
    sellCount := st.sellCount + r.sellCount,
    walletData := mapSet st.walletData r.wallet
      ⟨r.value, r.solBalance, r.solValue, r.tokenValue, r.lpValue,
       r.realizedPnl, r.unrealizedPnl, r.volume, r.tradeCount, r.buyCount,
       r.sellCount, r.tokenCount⟩ }

/-- The staked-position accumulator (src/index.js:2888-2913). -/
structure StakedAgg where
  totalScipherBalance : ℚ := 0
  totalOriginalStake : ℚ := 0
  totalStakedValue : ℚ := 0
  stakedPositions : List StakedPosition := []
deriving DecidableEq, Repr

/-- One step over `(wallet, stakedData)`: rows with a positive `sCIPHER`
balance contribute; `originalStake = originalStake || vaultShare || 0`. -/
def stakedStep (st : StakedAgg) (entry : String × Option StakedData) : StakedAgg :=
  match entry.2 with
  | some sd =>
    if 0 < sd.scipherBalance then
      let originalStake := (jsOrQ sd.originalStake sd.vaultShare).getD 0
      { totalScipherBalance := st.totalScipherBalance + sd.scipherBalance,
        totalOriginalStake := st.totalOriginalStake + originalStake,
        totalStakedValue := st.totalStakedValue + sd.stakedValueUsd,
        stakedPositions := st.stakedPositions ++
          [⟨entry.1, sd.scipherBalance, originalStake, sd.stakedValueUsd,
            sd.multiplier, sd.source⟩] }
    else st
  | none => st

/-- The body of the `try` block of `_syncPortfolioInternal`: fetch and
process every wallet (failed wallets dropped by `Promise.allSettled`),
aggregate, fetch staked positions, and assemble the snapshot record.
`Except` mirrors the outer `try/catch` boundary. -/
def syncBody (env : SyncEnv) (walletList : List String) : Except String Portfolio := do
  let settled := walletList.map fun w => (env.fetchWallet w).map (processWallet env w)
  let results := settled.filterMap Except.toOption
  let agg := results.foldl aggStep {}
  let allTrades := sortKeep (fun a b => a.timestamp ≥ b.timestamp) agg.allTrades
  let staked := (walletList.map fun w => (w, env.fetchStaked w)).foldl stakedStep {}
  let totalLpValue := agg.allLpPositions.foldl (fun s p => s + p.valueUsd.getD 0) 0
  let sortedTokens := sortKeep (fun a b => a.totalUsd ≥ b.totalUsd) (agg.allTokens.map Prod.snd)
  pure
    { trades := allTrades.take 100,
      tradeCount := allTrades.length,
      buyCount := agg.buyCount,
      sellCount := agg.sellCount,
      totalVolume := agg.totalVolume,
      solBalance := agg.totalSolBalance,
      solValue := agg.totalSolValue,
      tokens := sortedTokens.take 20,
      tokenCount := sortedTokens.length,
      totalTokenValue := agg.totalTokenValue,
      lpPositions := agg.allLpPositions,
      lpValue := totalLpValue,
      stakedPositions := staked.stakedPositions,
      totalScipherBalance := staked.totalScipherBalance,
      totalStakedCipher := staked.totalOriginalStake,
      totalStakedValue := staked.totalStakedValue,
      realizedPnl := agg.totalRealizedPnl,
      unrealizedPnl := agg.totalUnrealizedPnl,
      totalValue := agg.totalSolValue + agg.totalTokenValue + totalLpValue +
        staked.totalStakedValue,
      walletData := agg.walletData,
      walletCount := walletList.length,
      lastSync := env.now }

/-- `_syncPortfolioInternal(chatId)`: build the wallet list (legacy
`myWallet` prepended when absent), return `null` when it is empty, run the
body, and on success perform the single whole-record snapshot assignment;
the `catch` returns `null` leaving the user untouched.  Returns the JS
return value together with the updated user record.

`syncWalletList` is the wallet-list computation at the top of
`_syncPortfolioInternal`: `portfolioWallets`, with a truthy legacy
`myWallet` prepended when not already present. -/
def syncWalletList (user : PortfolioUser) : List String :=
  match user.myWallet with
  | some w =>
    if w ≠ "" ∧ ¬ user.portfolioWallets.contains w then w :: user.portfolioWallets
    else user.portfolioWallets
  | none => user.portfolioWallets

def _syncPortfolioInternal (env : SyncEnv) (user : PortfolioUser) :
    Option Portfolio × PortfolioUser :=
  let walletList := syncWalletList user
  if walletList.length = 0 then (none, user)
  else
    match syncBody env walletList with
    | Except.ok p =>
      (some p,
        { user with
          portfolio := some p,
          portfolioWallets := walletList,
          myWallet := walletList.head?.bind fun w => if w = "" then none else some w })
    | Except.error _ => (none, user)

/-- `syncPortfolio(chatId)`: the wrapper only coalesces concurrent calls for
the same subscriber (src/index.js:2747-2761); a single sequential call is
`_syncPortfolioInternal`. -/
def syncPortfolio (env : SyncEnv) (user : PortfolioUser) :
    Option Portfolio × PortfolioUser :=
  _syncPortfolioInternal env user

/-! ## Specification-side definitions

These definitions transcribe claim sentences (not the source) and are
compared against the source-side definitions above. -/

/-- Swap-direction inference exactly as claim C4 states it: `in=quote ∧
out=base ⇒ buy`; `in=base ∧ out=quote ⇒ sell`; `out=protocol_token ⇒ buy`;
`in=protocol_token ⇒ sell`; otherwise null.  Mint extraction (case folding,
absent fields as `''`) as in the source. -/
def getSwapDirectionClaimed (m : OrbitMessage) : Option String :=
  let inMint := jsLower ((jsOrS (jsOrS m.inMint m.in_mint) m.inputMint).getD "")
  let outMint := jsLower ((jsOrS (jsOrS m.outMint m.out_mint) m.outputMint).getD "")
  let baseMint := jsLower ((jsOrS m.baseMint m.base_mint).getD "")
  let quoteMint := jsLower ((jsOrS m.quoteMint m.quote_mint).getD "")
  let cipher := jsLower MINTS.CIPHER
  if inMint = quoteMint ∧ outMint = baseMint then some "buy"
  else if inMint = baseMint ∧ outMint = quoteMint then some "sell"
  else if outMint = cipher then some "buy"
  else if inMint = cipher then some "sell"
  else none

/-- Swap-direction inference as the amended claim states it: the precedence
list gains the hard-wired SOL→CIPHER / CIPHER→SOL rules and the
`'cipher'`-substring forms of the protocol-token rules. -/
def getSwapDirectionAmended (m : OrbitMessage) : Option String :=
  let inMint := jsLower ((jsOrS (jsOrS m.inMint m.in_mint) m.inputMint).getD "")
  let outMint := jsLower ((jsOrS (jsOrS m.outMint m.out_mint) m.outputMint).getD "")
  let baseMint := jsLower ((jsOrS m.baseMint m.base_mint).getD "")
  let quoteMint := jsLower ((jsOrS m.quoteMint m.quote_mint).getD "")
  let cipher := jsLower MINTS.CIPHER
  let sol := jsLower MINTS.SOL
  if inMint = quoteMint ∧ outMint = baseMint then some "buy"
  else if inMint = sol ∧ outMint = cipher then some "buy"
  else if inMint = baseMint ∧ outMint = quoteMint then some "sell"
  else if inMint = cipher ∧ outMint = sol then some "sell"
  else if outMint = cipher ∨ jsIncludes outMint "cipher" then some "buy"
  else if inMint = cipher ∨ jsIncludes inMint "cipher" then some "sell"
  else none

/-- Quote-side valuation clause under claim C3's sanity rule: only a
computed USD strictly greater than $100 M is a sanity failure. -/
def tradeQuoteUsdClaimed (env : PriceEnv) (t : Trade) (pool : Pool) : Option ℚ :=
  let quote := (jsOrS pool.quoteMint pool.quote).getD ""
  match getPrice env quote with
  | some qp =>
    if 0 < qp then
      let amt := if t.side = some "buy" then tradeAmountIn t else tradeAmountOut t
      if 0 < amt then
        let usd := amt / 10 ^ getDecimals env quote * qp
        if usd ≤ 100000000 then some usd else none
      else none
    else none
  | none => none

/-- Base-side clause under claim C3's sanity rule. -/
def tradeBaseUsdClaimed (env : PriceEnv) (t : Trade) (pool : Pool) : Option ℚ :=
  let base := (jsOrS pool.baseMint pool.base).getD ""
  match getPrice env base with
  | some bp =>
    if 0 < bp then
      let amt := if t.side = some "buy" then tradeAmountOut t else tradeAmountIn t
      if 0 < amt then
        let usd := amt / 10 ^ getDecimals env base * bp
        if usd ≤ 100000000 then some usd else none
      else none
    else none
  | none => none

/-- Pool-spot-price clause under claim C3's sanity rule. -/
def tradePoolUsdClaimed (env : PriceEnv) (t : Trade) (pool : Pool) : Option ℚ :=
  match pool.price with
  | some pp =>
    if 0 < pp then
      let baseAmt := if t.side = some "buy" then tradeAmountOut t else tradeAmountIn t
      if 0 < baseAmt then
        let base := (jsOrS pool.baseMint pool.base).getD ""
        let usd := baseAmt / 10 ^ getDecimals env base * pp
        if usd ≤ 100000000 then some usd else none
      else none
    else none
  | none => none

/-- Trade valuation as claim C3 states it: the same four-stage priority
chain, but a computed USD is a sanity failure only when strictly greater
than $100 M. -/
def estimateTradeUsdClaimed (env : PriceEnv) (t : Trade) (pool : Pool) : ℚ :=
  ((((tradeExplicitUsd t).orElse fun _ => tradeQuoteUsdClaimed env t pool).orElse
    fun _ => tradeBaseUsdClaimed env t pool).orElse
    fun _ => tradePoolUsdClaimed env t pool).getD 0

/-- Quote-side clause under the amended sanity rule: a computed USD of
$100 M **or more** is a sanity failure. -/
def tradeQuoteUsdAmended (env : PriceEnv) (t : Trade) (pool : Pool) : Option ℚ :=
  let quote := (jsOrS pool.quoteMint pool.quote).getD ""
  match getPrice env quote with
  | some qp =>
    if 0 < qp then
      let amt := if t.side = some "buy" then tradeAmountIn t else tradeAmountOut t
      if 0 < amt then
        let usd := amt / 10 ^ getDecimals env quote * qp
        if usd < 100000000 then some usd else none
      else none
    else none
  | none => none

/-- Base-side clause under the amended sanity rule. -/
def tradeBaseUsdAmended (env : PriceEnv) (t : Trade) (pool : Pool) : Option ℚ :=
  let base := (jsOrS pool.baseMint pool.base).getD ""
  match getPrice env base with
  | some bp =>
    if 0 < bp then
      let amt := if t.side = some "buy" then tradeAmountOut t else tradeAmountIn t
      if 0 < amt then
        let usd := amt / 10 ^ getDecimals env base * bp
        if usd < 100000000 then some usd else none
      else none
    else none
  | none => none

/-- Pool-spot-price clause under the amended sanity rule. -/
def tradePoolUsdAmended (env : PriceEnv) (t : Trade) (pool : Pool) : Option ℚ :=
  match pool.price with
  | some pp =>
    if 0 < pp then
      let baseAmt := if t.side = some "buy" then tradeAmountOut t else tradeAmountIn t
      if 0 < baseAmt then
        let base := (jsOrS pool.baseMint pool.base).getD ""
        let usd := baseAmt / 10 ^ getDecimals env base * pp
        if usd < 100000000 then some usd else none
      else none
    else none
  | none => none

/-- Trade valuation as the amended claim states it: the four-stage priority
chain where a computed USD of $100 M or more fails the sanity check. -/
def estimateTradeUsdAmended (env : PriceEnv) (t : Trade) (pool : Pool) : ℚ :=
  ((((tradeExplicitUsd t).orElse fun _ => tradeQuoteUsdAmended env t pool).orElse
    fun _ => tradeBaseUsdAmended env t pool).orElse
    fun _ => tradePoolUsdAmended env t pool).getD 0

/-! ## Concrete instances used by counterexamples and witnesses -/

/-- The pinned trade sequence of claim C2: buy $100, buy $100, sell $150,
sell $100 on a single pool, timestamps already ascending. -/
def demoTrades : List PnlTrade :=
  [⟨"pool1", "buy", 100, 1, ""⟩, ⟨"pool1", "buy", 100, 2, ""⟩,
   ⟨"pool1", "sell", 150, 3, ""⟩, ⟨"pool1", "sell", 100, 4, ""⟩]

/-! ## Claim theorems -/

/-- Claim C2, as stated, is false on the code: on buy 100, buy 100,
sell 150, sell 100 the cost-basis loop realizes `150 − 200·min(150/200,1) =
0` on the first sell and `100 − 50·min(100/50,1) = 50` on the second, so
`calculatePnL` returns a total realized PnL of 50 USD, not the claimed
115 USD. -/
theorem calculatePnL_claim_counterexample :
    (calculatePnL demoTrades).realized = 50 ∧ (calculatePnL demoTrades).realized ≠ 115 := by
  constructor <;>
    · simp [calculatePnL, pnlStep, sortKeep, insertKeep, mapGet, mapSet, demoTrades]
      norm_num

/-- Claim C2 (amended): on the trade sequence buy $100, buy $100, sell $150,
sell $100 in one pool, the cost-basis algorithm yields a total realized PnL
of 50 USD — 0 after the first sell (basis consumed 150) and 50 after the
second (basis consumed 50). -/
theorem calculatePnL_demo_realized :
    (calculatePnL (demoTrades.take 3)).realized = 0 ∧
    (calculatePnL demoTrades).realized = 50 := by
  constructor <;>
    · simp [calculatePnL, pnlStep, sortKeep, insertKeep, mapGet, mapSet, demoTrades]
      norm_num

set_option maxRecDepth 16384 in
/-- Claim C5, as stated, is false on the code: the send loop pauses only at
indexes `i` with `i > 0 ∧ i % 20 = 0`, so a 1 000-recipient fan-out in which
every send succeeds performs 49 pauses, not at least 50. -/
theorem broadcastTradePauses_claim_counterexample :
    ¬ 50 ≤ broadcastTradePauses ((List.range 1000).map Int.ofNat) := by
  decide

set_option maxRecDepth 16384 in
/-- Claim C5 (amended): a fan-out whose recipient set contains 1 000
subscribers performs exactly 49 inter-batch pauses when every send succeeds
(the loop sleeps 100 ms at each send index that is a positive multiple of
20; the indexes are 0..999). -/
theorem broadcastTradePauses_thousand :
    broadcastTradePauses ((List.range 1000).map Int.ofNat) = 49 := by
  decide

set_option maxRecDepth 4096 in
/-- Claim C6: the claim is right and the code is wrong.  The explicit-label
cascade tests `includes('lock_liquidity')` before `includes
('unlock_liquidity')`, and `'unlock_liquidity'` contains `'lock_liquidity'`
as a substring, so a message whose explicit type is exactly
`'unlock_liquidity'` is decoded as LockLiquidity — the dedicated
UnlockLiquidity branch is unreachable for that label (it still fires for
`'liquidityunlocked'`). -/
theorem detectTransactionType_unlock_label_bug :
    detectTransactionType { type := some "unlock_liquidity" } =
      ⟨TX_TYPE.LOCK_LIQUIDITY, none, "high"⟩ ∧
    detectTransactionType { type := some "lock_liquidity" } =
      ⟨TX_TYPE.LOCK_LIQUIDITY, none, "high"⟩ ∧
    detectTransactionType { type := some "liquidityunlocked" } =
      ⟨TX_TYPE.UNLOCK_LIQUIDITY, none, "high"⟩ := by
  refine ⟨?_, ?_, ?_⟩ <;> decide

/-- Claim C7: for the bounded cache at any state, (i) a read of an entry
whose age strictly exceeds the TTL misses and deletes exactly that entry,
(ii) a read of a fresh entry hits and leaves the cache — including its
insertion order — completely unchanged (reads never reorder), and (iii) a
write performed at capacity evicts exactly the oldest-inserted entry (the
head of the insertion-ordered map), after which the new entry is map-set
into the remainder. -/
theorem boundedCache_ttl_and_eviction {κ α : Type} [DecidableEq κ]
    (c : BoundedCache κ α) (k : κ) (now : ℤ) (e : CacheEntry α) (v : α) :
    (mapGet c.cache k = some e → c.ttlMs < now - e.timestamp →
      (c.get k now).1 = none ∧ (c.get k now).2.cache = mapDelete c.cache k) ∧
    (mapGet c.cache k = some e → now - e.timestamp ≤ c.ttlMs →
      c.get k now = (some e.value, c)) ∧
    (∀ e0 rest, c.cache = e0 :: rest → c.cache.length ≥ c.maxSize →
      (c.set k v now).cache = mapSet rest k ⟨v, now⟩) := by
  refine ⟨fun h hexp => ?_, fun h hfresh => ?_, fun e0 rest hc hcap => ?_⟩
  · simp [BoundedCache.get, h, hexp]
  · simp [BoundedCache.get, h, not_lt.2 hfresh]
  · have hcap1 : c.maxSize ≤ rest.length + 1 := by
      have := hc ▸ hcap
      simpa using this
    simp [BoundedCache.set, hc, hcap1, mapDelete]

/-- Concrete two-entry cache used by the C7 witness. -/
def c7demo : BoundedCache String ℕ :=
  ⟨2, 1000, [("a", ⟨1, 0⟩), ("b", ⟨2, 10⟩)]⟩

/-- Witness for claim C7 on a concrete cache: an expired read of `"a"` at
`now = 2000` misses and deletes it, a fresh read at `now = 500` hits and
leaves the cache untouched, and a write at capacity evicts the
oldest-inserted entry `"a"`. -/
theorem boundedCache_ttl_and_eviction_witness :
    ((c7demo.get "a" 2000).1 = none ∧
      (c7demo.get "a" 2000).2.cache = mapDelete c7demo.cache "a") ∧
    c7demo.get "a" 500 = (some 1, c7demo) ∧
    (c7demo.set "c" 3 20).cache = mapSet [("b", ⟨2, 10⟩)] "c" ⟨3, 20⟩ :=
  ⟨(boundedCache_ttl_and_eviction c7demo "a" 2000 ⟨1, 0⟩ 3).1 (by decide) (by decide),
   (boundedCache_ttl_and_eviction c7demo "a" 500 ⟨1, 0⟩ 3).2.1 (by decide) (by decide),
   (boundedCache_ttl_and_eviction c7demo "c" 20 ⟨1, 0⟩ 3).2.2 ("a", ⟨1, 0⟩)
     [("b", ⟨2, 10⟩)] (by decide) (by decide)⟩

/-- Claim C8: for a subscriber whose quiet interval wraps midnight
(`quiet_start > quiet_end`) and who has no active snooze, `isUserSnoozed` is
true exactly for UTC hours in `[quiet_start..24) ∪ [0..quiet_end)`. -/
theorem isUserSnoozed_quiet_wrap (u : Subscriber) (now : ℤ) (hour s e : ℕ)
    (hs : u.quietStart = some s) (he : u.quietEnd = some e) (hwrap : e < s)
    (_hhour : hour < 24)
    (hsn : ¬(u.snoozedUntil ≠ 0 ∧ now < u.snoozedUntil)) :
    isUserSnoozed u now hour = true ↔ (s ≤ hour ∨ hour < e) := by
  have hns : ¬ s < e := by omega
  simp [isUserSnoozed, hs, he, hsn, hns]

/-- Concrete subscriber with `quiet_start = 22`, `quiet_end = 6` for the C8
witness. -/
def u8demo : Subscriber := { snoozedUntil := 0, quietStart := some 22, quietEnd := some 6 }

/-- Witness for claim C8: with `quiet_start = 22`, `quiet_end = 6` and no
active snooze, `isUserSnoozed` is true at UTC hours 23 and 5 and false at
hour 7. -/
theorem isUserSnoozed_quiet_wrap_witness :
    isUserSnoozed u8demo 0 23 = true ∧ isUserSnoozed u8demo 0 5 = true ∧
    isUserSnoozed u8demo 0 7 = false := by
  have h23 := isUserSnoozed_quiet_wrap u8demo 0 23 22 6 rfl rfl (by decide)
    (by decide) (by decide)
  have h5 := isUserSnoozed_quiet_wrap u8demo 0 5 22 6 rfl rfl (by decide)
    (by decide) (by decide)
  have h7 := isUserSnoozed_quiet_wrap u8demo 0 7 22 6 rfl rfl (by decide)
    (by decide) (by decide)
  refine ⟨h23.mpr (by omega), h5.mpr (by omega), ?_⟩
  cases hb : isUserSnoozed u8demo 0 7
  · rfl
  · have := h7.mp hb
    omega

/-- Claim C1, as stated, is false on the code: when the wallet feed delivers
the signature first, `handleHeliusMessage` inserts it into the main
`seenTxs` set as well, so the later DEX-feed delivery is dropped and the
matching subscriber receives zero Swap notifications (while DEX-first
delivery produces one).  Delivery is therefore not order-independent. -/
theorem feedDedup_claim_counterexample :
    countSent (handleOrbitSwap ["p"] [1] "s" "p" (handleHeliusLogs [1] "s" {}))
      1 AlertKind.swapAlert "s" = 0 ∧
    countSent (handleHeliusLogs [1] "s" (handleOrbitSwap ["p"] [1] "s" "p" {}))
      1 AlertKind.swapAlert "s" = 1 := by
  constructor <;> decide

/-- Claim C1 (amended): for a signature delivered once on each feed, each
subscriber with the sending wallet subscribed receives exactly one
WalletAlert regardless of delivery order (the wallet seen set is disjoint
from the DEX seen set, so a DEX-first arrival never suppresses the
WalletAlert); but the Swap notification is order-dependent: each matching
subscriber receives exactly one Swap notification when the DEX feed
delivers first and none when the wallet feed delivers first, because
`handleHeliusMessage` also inserts the signature into the main DEX seen
set. -/
theorem feedDedup_order_dependent (sig poolId : String) (pools : List String)
    (recipients walletRecipients : List ℤ) (c : ℤ)
    (hsig : sig ≠ "") (hpid : poolId ≠ "") (hpool : pools.contains poolId = true)
    (hr : (recipients.countP fun x => decide (x = c)) = 1)
    (hw : (walletRecipients.countP fun x => decide (x = c)) = 1) :
    countSent (handleHeliusLogs walletRecipients sig
        (handleOrbitSwap pools recipients sig poolId {}))
      c AlertKind.swapAlert sig = 1 ∧
    countSent (handleHeliusLogs walletRecipients sig
        (handleOrbitSwap pools recipients sig poolId {}))
      c AlertKind.walletAlert sig = 1 ∧
    countSent (handleOrbitSwap pools recipients sig poolId
        (handleHeliusLogs walletRecipients sig {}))
      c AlertKind.swapAlert sig = 0 ∧
    countSent (handleOrbitSwap pools recipients sig poolId
        (handleHeliusLogs walletRecipients sig {}))
      c AlertKind.walletAlert sig = 1 := by
  have hpm : poolId ∈ pools := by simpa using hpool
  refine ⟨?_, ?_, ?_, ?_⟩ <;>
    simp [handleOrbitSwap, handleHeliusLogs, countSent, hsig, hpm, hpid,
      List.countP_append, List.countP_map, Function.comp_def, hr, hw]

/-- Witness for claim C1 (amended) at a concrete signature, pool, and
single matching subscriber. -/
theorem feedDedup_order_dependent_witness :
    ("s" ≠ "" ∧ "p" ≠ "" ∧ (["p"].contains "p") = true ∧
      (([1] : List ℤ).countP fun x => decide (x = (1 : ℤ))) = 1) ∧
    (countSent (handleHeliusLogs [1] "s" (handleOrbitSwap ["p"] [1] "s" "p" {}))
        1 AlertKind.swapAlert "s" = 1 ∧
      countSent (handleHeliusLogs [1] "s" (handleOrbitSwap ["p"] [1] "s" "p" {}))
        1 AlertKind.walletAlert "s" = 1 ∧
      countSent (handleOrbitSwap ["p"] [1] "s" "p" (handleHeliusLogs [1] "s" {}))
        1 AlertKind.swapAlert "s" = 0 ∧
      countSent (handleOrbitSwap ["p"] [1] "s" "p" (handleHeliusLogs [1] "s" {}))
        1 AlertKind.walletAlert "s" = 1) :=
  ⟨by decide,
   feedDedup_order_dependent "s" "p" ["p"] [1] [1] 1 (by decide) (by decide)
     (by decide) (by decide) (by decide)⟩

/-- The concrete message refuting claim C4: input mint SOL, output mint
CIPHER, on a pool whose base is SOL and whose quote is CIPHER. -/
def m4cex : OrbitMessage :=
  { inMint := some MINTS.SOL, outMint := some MINTS.CIPHER,
    baseMint := some MINTS.SOL, quoteMint := some MINTS.CIPHER }

set_option maxRecDepth 8192 in
/-- Claim C4, as stated, is false on the code: `getSwapDirection` contains a
hard-wired `in = SOL ∧ out = CIPHER ⇒ buy` rule placed before the claimed
`in = base ∧ out = quote ⇒ sell` rule, so on a pool with base SOL and quote
CIPHER a SOL→CIPHER swap is decoded as a buy where the claimed precedence
yields a sell. -/
theorem getSwapDirection_claim_counterexample :
    getSwapDirection m4cex = some "buy" ∧
    getSwapDirectionClaimed m4cex = some "sell" := by
  constructor <;> decide

/-- Claim C4 (amended): for every swap message without a truthy explicit
`side` field, the decoder infers the direction by comparing the (case-folded,
absent-as-empty) input/output mints with exactly this precedence:
`in=quote ∧ out=base ⇒ buy`; `in=SOL ∧ out=CIPHER ⇒ buy`;
`in=base ∧ out=quote ⇒ sell`; `in=CIPHER ∧ out=SOL ⇒ sell`;
`out=CIPHER ∨ out contains "cipher" ⇒ buy`;
`in=CIPHER ∨ in contains "cipher" ⇒ sell`; otherwise the direction is null —
and a message with the explicit `swap` label still emits the Swap event
carrying whatever direction (possibly null) the inference returned. -/
theorem getSwapDirection_amended (m : OrbitMessage)
    (hside : jsTruthyS m.side = false) (htype : m.type = some "swap") :
    getSwapDirection m = getSwapDirectionAmended m ∧
    (detectTransactionType m).type = TX_TYPE.SWAP ∧
    (detectTransactionType m).direction = getSwapDirection m := by
  have hdir : getSwapDirection m = getSwapDirectionAmended m := by
    simp only [getSwapDirection, getSwapDirectionAmended, hside,
      Bool.false_eq_true, if_false]
  have hdet : detectTransactionType m = ⟨TX_TYPE.SWAP, getSwapDirection m, "high"⟩ := by
    unfold detectTransactionType
    rw [htype]
    have h1 : jsOrS (jsOrS (jsOrS (jsOrS (jsOrS (some "swap") m.eventType)
        m.event) m.action) m.instructionName) m.eventName = some "swap" := by
      simp [jsOrS]
    rw [h1]
    have h2 : jsLower ((some "swap").getD "") = "swap" := by decide
    rw [h2]
    have h3 : (jsIncludes "swap" "swap" || "swap" = "trade" ||
        "swap" = "swapexecuted") = true := by decide
    simp only [h3, if_true]
  exact ⟨hdir, by rw [hdet], by rw [hdet]⟩

/-- Witness for claim C4 (amended), applied to the SOL→CIPHER message with
the explicit `swap` label: the code and the amended precedence agree
(both yield `buy`), and the Swap event emits with that direction. -/
theorem getSwapDirection_amended_witness :
    (jsTruthyS ({ m4cex with type := some "swap" } : OrbitMessage).side = false ∧
      ({ m4cex with type := some "swap" } : OrbitMessage).type = some "swap") ∧
    (getSwapDirection { m4cex with type := some "swap" } =
        getSwapDirectionAmended { m4cex with type := some "swap" } ∧
      (detectTransactionType { m4cex with type := some "swap" }).type = TX_TYPE.SWAP ∧
      (detectTransactionType { m4cex with type := some "swap" }).direction =
        getSwapDirection { m4cex with type := some "swap" }) :=
  ⟨⟨by decide, by decide⟩,
   getSwapDirection_amended { m4cex with type := some "swap" } (by decide) (by decide)⟩

/-- The quote-side clause of the code agrees with the amended sanity rule:
under the positivity guards the computed USD is positive, so the code's
`0 < usd ∧ usd < 1e8` window coincides with rejection iff `usd ≥ 1e8`. -/
lemma tradeQuoteUsd_eq_amended (env : PriceEnv) (t : Trade) (pool : Pool) :
    tradeQuoteUsd env t pool = tradeQuoteUsdAmended env t pool := by
  unfold tradeQuoteUsd tradeQuoteUsdAmended
  cases hq : getPrice env ((jsOrS pool.quoteMint pool.quote).getD "") with
  | none => simp [hq]
  | some qp =>
    by_cases hqp : 0 < qp
    · by_cases ha : 0 < (if t.side = some "buy" then tradeAmountIn t else tradeAmountOut t)
      · have husd : 0 < (if t.side = some "buy" then tradeAmountIn t else tradeAmountOut t) /
            10 ^ getDecimals env ((jsOrS pool.quoteMint pool.quote).getD "") * qp :=
          mul_pos (div_pos ha (by positivity)) hqp
        simp [hq, hqp, ha, husd]
      · simp [hq, hqp, ha]
    · simp [hq, hqp]

/-- The base-side clause agrees with the amended sanity rule. -/
lemma tradeBaseUsd_eq_amended (env : PriceEnv) (t : Trade) (pool : Pool) :
    tradeBaseUsd env t pool = tradeBaseUsdAmended env t pool := by
  unfold tradeBaseUsd tradeBaseUsdAmended
  cases hq : getPrice env ((jsOrS pool.baseMint pool.base).getD "") with
  | none => simp [hq]
  | some bp =>
    by_cases hbp : 0 < bp
    · by_cases ha : 0 < (if t.side = some "buy" then tradeAmountOut t else tradeAmountIn t)
      · have husd : 0 < (if t.side = some "buy" then tradeAmountOut t else tradeAmountIn t) /
            10 ^ getDecimals env ((jsOrS pool.baseMint pool.base).getD "") * bp :=
          mul_pos (div_pos ha (by positivity)) hbp
        simp [hq, hbp, ha, husd]
      · simp [hq, hbp, ha]
    · simp [hq, hbp]

/-- The pool-spot-price clause agrees with the amended sanity rule. -/
lemma tradePoolUsd_eq_amended (env : PriceEnv) (t : Trade) (pool : Pool) :
    tradePoolUsd env t pool = tradePoolUsdAmended env t pool := by
  unfold tradePoolUsd tradePoolUsdAmended
  cases hq : pool.price with
  | none => simp [hq]
  | some pp =>
    by_cases hpp : 0 < pp
    · by_cases ha : 0 < (if t.side = some "buy" then tradeAmountOut t else tradeAmountIn t)
      · have husd : 0 < (if t.side = some "buy" then tradeAmountOut t else tradeAmountIn t) /
            10 ^ getDecimals env ((jsOrS pool.baseMint pool.base).getD "") * pp :=
          mul_pos (div_pos ha (by positivity)) hpp
        simp [hq, hpp, ha, husd]
      · simp [hq, hpp, ha]
    · simp [hq, hpp]

/-- Claim C3 (amended): for every trade message and pool, `estimateTradeUsd`
equals the four-stage priority chain — explicit `usdValue`/`valueUsd`/
`value`-with-sanity-cap field, then quote side, then base side, then pool
spot price — in which a computed USD of $100 M **or more** is a sanity
failure causing the next fallback to be tried. -/
theorem estimateTradeUsd_matches_amended (env : PriceEnv) (t : Trade) (pool : Pool) :
    estimateTradeUsd env t pool = estimateTradeUsdAmended env t pool := by
  unfold estimateTradeUsd estimateTradeUsdAmended
  rw [tradeQuoteUsd_eq_amended, tradeBaseUsd_eq_amended, tradePoolUsd_eq_amended]

/-- The environment for the C3 counterexample: no cached prices, no token
metadata (quote decimals default to 6). -/
def c3env : PriceEnv := {}

/-- The pool for the C3 counterexample: quote is the USDC stablecoin (price
1 without lookup), base unknown, no listed pool price. -/
def c3pool : Pool := { quoteMint := some MINTS.USDC }

/-- The trade for the C3 counterexample: a buy whose quote-side raw amount
computes to exactly $100 M (`10^14 / 10^6 × 1`). -/
def c3trade : Trade := { side := some "buy", amountIn := some 100000000000000 }

/-- Claim C3, as stated, is false on the code at the sanity boundary: a
quote-side valuation of exactly $100 M is rejected by the code's strict
`usd < 100_000_000` window (all later fallbacks fail here, so the code
returns 0), while the claimed "greater than $100 M fails" rule accepts it
and returns $100 M. -/
theorem estimateTradeUsd_claim_counterexample :
    estimateTradeUsd c3env c3trade c3pool = 0 ∧
    estimateTradeUsdClaimed c3env c3trade c3pool = 100000000 := by
  constructor <;>
  · simp [estimateTradeUsd, estimateTradeUsdClaimed, tradeExplicitUsd,
      tradeQuoteUsd, tradeQuoteUsdClaimed, tradeBaseUsd, tradeBaseUsdClaimed,
      tradePoolUsd, tradePoolUsdClaimed, getPrice, getDecimals, mapGet,
      jsOrS, jsOrQ, tradeAmountIn, tradeAmountOut, c3env, c3pool, c3trade,
      MINTS.USDC, MINTS.USDT, Option.orElse]
    norm_num

/-- A successful `syncBody` always returns the assembled record whose
`lastSync` is the current clock. -/
lemma syncBody_lastSync (env : SyncEnv) (wl : List String) (p : Portfolio)
    (h : syncBody env wl = Except.ok p) : p.lastSync = env.now := by
  unfold syncBody at h
  simp only [pure, Except.pure] at h
  cases h
  rfl

/-- Claim C9 (amended): whenever `syncPortfolio` returns null — the empty
wallet list, or an error crossing the `try/catch` boundary — the subscriber
record, and in particular the stored snapshot with every field including
`lastSync`, is left completely unchanged; and whenever it returns a
snapshot, the stored snapshot is exactly that single whole record, whose
`lastSync` is the sync's clock reading.  (Per-wallet sub-fetch failures are
absorbed by `Promise.allSettled`, so they do not make the sync return null:
the failed wallets are merely excluded from the aggregation.) -/
theorem syncPortfolio_null_untouched (env : SyncEnv) (user : PortfolioUser) :
    ((syncPortfolio env user).1 = none → (syncPortfolio env user).2 = user) ∧
    (∀ p, (syncPortfolio env user).1 = some p →
      (syncPortfolio env user).2.portfolio = some p ∧ p.lastSync = env.now) := by
  unfold syncPortfolio _syncPortfolioInternal
  by_cases h0 : (syncWalletList user).length = 0
  · simp [h0]
  · cases hb : syncBody env (syncWalletList user) with
    | error e => simp [h0, hb]
    | ok q =>
      simp only [h0, if_false, hb]
      refine ⟨fun hnone => by simp at hnone, fun p hp => ?_⟩
      have hpq : q = p := by simpa using hp
      subst hpq
      exact ⟨rfl, syncBody_lastSync env (syncWalletList user) q hb⟩

/-- A previously stored snapshot with `lastSync = 5`, used by the C9
counterexample and witness. -/
def c9oldP : Portfolio :=
  ⟨[], 0, 0, 0, 0, 0, 0, [], 0, 0, [], 0, [], 0, 0, 0, 0, 0, 0, [], 0, 5⟩

/-- An environment in which every wallet fetch fails, at clock 1000. -/
def c9env : SyncEnv :=
  { fetchWallet := fun _ => Except.error "network error", now := 1000 }

/-- A subscriber with one portfolio wallet and the old stored snapshot. -/
def c9user : PortfolioUser :=
  { portfolioWallets := ["w1"], portfolio := some c9oldP }

/-- Claim C9, as stated, is false on the code: with a single portfolio
wallet whose sub-fetches all fail, `Promise.allSettled` absorbs the error,
the sync continues with zero wallets' data, and `syncPortfolio` returns a
fresh snapshot (not null) whose `lastSync` is the current clock — replacing
the previously stored snapshot (`lastSync` 5 becomes 1000). -/
theorem syncPortfolio_claim_counterexample :
    (syncPortfolio c9env c9user).1.map Portfolio.lastSync = some 1000 ∧
    (syncPortfolio c9env c9user).2.portfolio.map Portfolio.lastSync = some 1000 ∧
    c9user.portfolio.map Portfolio.lastSync = some 5 := by
  exact ⟨rfl, rfl, rfl⟩

/-- An environment in which the single wallet fetch succeeds (empty data),
at clock 7. -/
def c9envOk : SyncEnv :=
  { fetchWallet := fun _ => Except.ok {}, now := 7 }

/-- A subscriber with one portfolio wallet and no stored snapshot. -/
def c9userOk : PortfolioUser := { portfolioWallets := ["w"] }

/-- Witness for claim C9 (amended): a sync over an empty wallet list
returns null and leaves the subscriber untouched, and a successful sync
stores exactly the returned whole record with `lastSync` equal to the
clock. -/
theorem syncPortfolio_null_untouched_witness :
    ((syncPortfolio ({} : SyncEnv) ({} : PortfolioUser)).1 = none ∧
      (syncPortfolio ({} : SyncEnv) ({} : PortfolioUser)).2 = ({} : PortfolioUser)) ∧
    ((syncPortfolio c9envOk c9userOk).2.portfolio =
        some ((syncPortfolio c9envOk c9userOk).1.getD c9oldP) ∧
      ((syncPortfolio c9envOk c9userOk).1.getD c9oldP).lastSync = 7) :=
  ⟨⟨rfl, (syncPortfolio_null_untouched {} {}).1 rfl⟩,
   (syncPortfolio_null_untouched c9envOk c9userOk).2
     ((syncPortfolio c9envOk c9userOk).1.getD c9oldP) rfl⟩

/-- Claim C10: a mint with no cached token metadata — and likewise a mint
whose cached `decimals` is 0, since `0` is falsy in `decimals || 6` — gets
`getDecimals` = 6, and consequently the wallet-transaction, trade, and LP
valuation paths all divide such a mint's raw amounts by `10^6`. -/
theorem getDecimals_default_six (env : PriceEnv) (mint : String)
    (hmeta : mapGet env.tokens mint = none ∨
      ∃ tm, mapGet env.tokens mint = some tm ∧ tm.decimals = 0) :
    getDecimals env mint = 6 ∧
    (∀ p amt, getPrice env mint = some p → p ≠ 0 →
      estimateWalletTxUsd env
          { tokenTransfers := [{ mint := mint, tokenAmount := some amt }] } =
        |amt| / 10 ^ 6 * p) ∧
    (∀ qp amtIn (pool : Pool), pool.quoteMint = some mint →
      getPrice env mint = some qp → 0 < qp → 0 < amtIn →
      amtIn / 10 ^ 6 * qp < 100000000 →
      estimateTradeUsd env { side := some "buy", amountIn := some amtIn } pool =
        amtIn / 10 ^ 6 * qp) ∧
    (∀ qp qamt (pool : Pool), pool.quoteMint = some mint →
      pool.baseMint = none → pool.base = none →
      getPrice env mint = some qp → qp ≠ 0 → qamt ≠ 0 →
      estimateLpUsd env { quoteAmount := some qamt } pool = qamt / 10 ^ 6 * qp) := by
  have hdec : getDecimals env mint = 6 := by
    rcases hmeta with h | ⟨tm, h, h0⟩
    · simp [getDecimals, h]
    · simp [getDecimals, h, h0]
  have hne : ∀ p : ℚ, getPrice env mint = some p → mint ≠ "" := by
    intro p hp h
    rw [h] at hp
    simp [getPrice] at hp
  refine ⟨hdec, fun p amt hp hp0 => ?_, fun qp amtIn pool hq hp hqp hamt hs => ?_,
    fun qp qamt pool hq hb1 hb2 hp hqp0 hqamt => ?_⟩
  · simp [estimateWalletTxUsd, hp, hp0, hdec]
  · have hne1 := hne qp hp
    have husd : 0 < amtIn / 10 ^ 6 * qp := mul_pos (div_pos hamt (by positivity)) hqp
    simp [estimateTradeUsd, tradeExplicitUsd, tradeQuoteUsd, tradeAmountIn,
      jsOrQ, jsOrS, hq, hne1, hp, hqp, hdec, hamt, hamt.ne', hs, husd,
      Option.orElse]
  · have hne1 := hne qp hp
    have hbase : getPrice env "" = none := by simp [getPrice]
    simp [estimateLpUsd, jsTruthyQ, jsOrS, hq, hne1, hb1, hb2, hp, hqp0,
      hqamt, hdec, hbase]

/-- Concrete environment for the C10 witness: one cached price (mint `"M1"`
at $2, fresh) and an empty token-metadata map. -/
def c10env : PriceEnv := { priceCache := [("M1", ⟨2, 0⟩)] }

/-- Witness for claim C10 at mint `"M1"` (no cached metadata): decimals
default to 6 and each valuation path divides by `10^6` — wallet transfer of
raw 3 000 000 at $2 values $6, a buy of raw `5 000 000` quote-side values
$10, and an LP event with raw quote amount `1 000 000` values $2. -/
theorem getDecimals_default_six_witness :
    mapGet c10env.tokens "M1" = none ∧
    getDecimals c10env "M1" = 6 ∧
    estimateWalletTxUsd c10env
        { tokenTransfers := [{ mint := "M1", tokenAmount := some 3000000 }] } =
      |(3000000 : ℚ)| / 10 ^ 6 * 2 ∧
    estimateTradeUsd c10env { side := some "buy", amountIn := some 5000000 }
        { quoteMint := some "M1" } = 5000000 / 10 ^ 6 * 2 ∧
    estimateLpUsd c10env { quoteAmount := some 1000000 }
        { quoteMint := some "M1" } = 1000000 / 10 ^ 6 * 2 := by
  have h := getDecimals_default_six c10env "M1" (Or.inl rfl)
  refine ⟨rfl, h.1, ?_, ?_, ?_⟩
  · exact h.2.1 2 3000000 rfl (by norm_num)
  · exact h.2.2.1 2 5000000 { quoteMint := some "M1" } rfl rfl (by norm_num)
      (by norm_num) (by norm_num)
  · exact h.2.2.2 2 1000000 { quoteMint := some "M1" } rfl rfl rfl rfl
      (by norm_num) (by norm_num)

end Orbit
